import Mathlib

/-!
Shallow embedding of the GLFW bridge library (src/lib.rs): a set of native
bridge functions exposed to a dynamically typed host runtime, sharing a
process-wide `Mutex<Option<GlfwState>>`.  Each Rust bridge function
`fn f(args: Vec<Value>) -> Result<Value, String>` acting on the global state
is modelled as a pure Lean function from the argument list and the current
global state to an outcome and the new global state.  Calls into the native
GLFW backend (whose results the bridge cannot control) are modelled as
explicit parameters: the result of `glfw::init`, the result of
`Glfw::create_window`, the per-window effect of `Glfw::poll_events`, and the
address of `glfwGetProcAddress`.
-/

/-- The dynamically typed value of the host runtime (the `aegis_core::Value`
collaborator, spec section 6: variants boolean, integer, floating-point,
text, null).  Host integers are `i64`; we use `Int` and apply explicit
wrap-around at the Rust `as` casts. -/
inductive Value where
  | boolean : Bool → Value
  | integer : Int → Value
  | float : Float → Value
  | text : String → Value
  | null : Value

/-- Modelled from the spec: `aegis_core::Value::as_int`, a conversion
accessor of the consumed host value type (not part of this repository),
which per spec section 6 fails with a descriptive error when the value is
of the wrong variant. -/
def Value.as_int : Value → Except String Int
  | .integer i => .ok i
  | _ => .error "Expected Integer"

/-- Modelled from the spec: `aegis_core::Value::as_str`, the text conversion
accessor of the consumed host value type; fails with a descriptive error on
a non-text variant. -/
def Value.as_str : Value → Except String String
  | .text s => .ok s
  | _ => .error "Expected String"

/-- Whether a host value is of the integer variant. -/
def Value.isInt : Value → Bool
  | .integer _ => true
  | _ => false

/-- Outcome of one bridge call as seen by the host: `Ok(value)`,
`Err(message)`, or a Rust panic (out-of-bounds `Vec` indexing), which does
not return to the host at all. -/
inductive Outcome where
  | ok : Value → Outcome
  | err : String → Outcome
  | panicked : String → Outcome

/-- Whether an outcome is a successful `Ok(_)` return. -/
def Outcome.isOk : Outcome → Bool
  | .ok _ => true
  | _ => false

/-- GLFW key action state (the `Action` enum of the glfw crate): `Press`,
`Repeat`, `Release`. -/
inductive KeyAction where
  | press : KeyAction
  | rept : KeyAction
  | release : KeyAction
deriving BEq, Repr

/-- A native GLFW window (`PWindow`): its close-requested flag, its key
polling flag (set by `set_key_polling`), and its key state as queried by
`Window::get_key`, from the raw `i32` key code. -/
structure NativeWindow where
  shouldClose : Bool
  keyPolling : Bool
  getKey : Int → KeyAction

/-- The native event receiver paired with each window
(`GlfwReceiver<(f64, WindowEvent)>`); its contents are never inspected by
the bridge, only stored alongside the window. -/
inductive GlfwReceiver where
  | mk : GlfwReceiver

/-- The native GLFW context handle (`Glfw`).  The bridge only ever calls
its methods; the one piece of data it reads out is `get_time()`. -/
structure GlfwContext where
  time : Float

/-- A registry entry: one native window paired with its event receiver. -/
abbrev WEntry := NativeWindow × GlfwReceiver

/-- The window registry `HashMap<usize, (PWindow, GlfwReceiver<..>)>`,
modelled as an association list with unique keys (insertion replaces). -/
abbrev WindowMap := List (Nat × WEntry)

/-- Lookup in the registry (`HashMap::get`). -/
def lookupW : WindowMap → Nat → Option WEntry
  | [], _ => none
  | (k, v) :: rest, k0 => if k = k0 then some v else lookupW rest k0

/-- Insertion into the registry (`HashMap::insert`): replaces the entry of
an existing key, otherwise appends. -/
def insertW : WindowMap → Nat → WEntry → WindowMap
  | [], k0, v0 => [(k0, v0)]
  | (k, v) :: rest, k0, v0 =>
    if k = k0 then (k0, v0) :: rest else (k, v) :: insertW rest k0 v0

/-- The process-wide state `GlfwState { context, windows, next_id }`. -/
structure GlfwState where
  context : GlfwContext
  windows : WindowMap
  next_id : Nat

/-- The Rust cast `i64 as u32`: truncation to the low 32 bits. -/
def toU32 (i : Int) : Nat := (i % (2 : Int) ^ 32).toNat

/-- The Rust cast `i64 as usize` (64-bit target): reduction modulo 2^64. -/
def toUSize (i : Int) : Nat := (i % (2 : Int) ^ 64).toNat

/-- The Rust cast `i64 as i32`: truncation to 32 bits, reinterpreted
signed. -/
def toI32 (i : Int) : Int :=
  if i % (2 : Int) ^ 32 < (2 : Int) ^ 31 then i % (2 : Int) ^ 32
  else i % (2 : Int) ^ 32 - (2 : Int) ^ 32

/-- The Rust cast `usize as i64` (64-bit target): reduction modulo 2^64,
reinterpreted signed. -/
def toI64 (n : Nat) : Int :=
  if n % 2 ^ 64 < 2 ^ 63 then ((n % 2 ^ 64 : Nat) : Int)
  else ((n % 2 ^ 64 : Nat) : Int) - (2 : Int) ^ 64

/-- Bridge function `glfw_init`: calls `glfw::init` (result passed in as `res`); on native
failure returns `Err("GLFW Init Error: ..")` leaving the global state
untouched; on success overwrites the global state with a fresh
`GlfwState { context, windows: empty, next_id: 1 }` and returns
`Ok(Boolean(true))`.  The `println!` diagnostic is observability only. -/
def glfw_init (res : Except String GlfwContext) (_args : List Value)
    (st : Option GlfwState) : Outcome × Option GlfwState :=
  match res with
  | .error e => (.err ("GLFW Init Error: " ++ e), st)
  | .ok glfw =>
    (.ok (.boolean true), some { context := glfw, windows := [], next_id := 1 })

/-- Bridge function `glfw_create_window`: arity check (`args.len() != 3`), then the three
argument conversions in order (width, height as `i64 as u32`; title as
text), then the not-initialized check, then the native
`Glfw::create_window` call (`nc`, applied to the converted width, height
and title; returning `None` on native refusal).  On success the new window
gets key polling enabled and made current (the latter is a purely native
side effect), is inserted under `next_id`, `next_id` is incremented, and
the id is returned as `Ok(Integer(id as i64))`. -/
def glfw_create_window (nc : Nat → Nat → String → Option WEntry)
    (args : List Value) (st : Option GlfwState) : Outcome × Option GlfwState :=
  match args with
  | [a0, a1, a2] =>
    match a0.as_int with
    | .error e => (.err e, st)
    | .ok wi =>
      match a1.as_int with
      | .error e => (.err e, st)
      | .ok hi =>
        match a2.as_str with
        | .error e => (.err e, st)
        | .ok title =>
          match st with
          | none => (.err "GLFW not initialized", none)
          | some state =>
            match nc (toU32 wi) (toU32 hi) title with
            | none => (.err "Failed to create GLFW window", some state)
            | some (window, events) =>
              let id := state.next_id
              (.ok (.integer (toI64 id)),
               some { state with
                      windows := insertW state.windows id
                        ({ window with keyPolling := true }, events),
                      next_id := state.next_id + 1 })
  | _ => (.err "Args: width, height, title", st)

/-- Bridge function `glfw_window_should_close`: indexes `args[0]` with no arity check (a
Rust panic on an empty argument list), converts it (`as_int()? as usize`),
then checks initialization; a registered window reports its native
close-requested flag, an unknown handle yields `Ok(Boolean(true))`. -/
def glfw_window_should_close (args : List Value) (st : Option GlfwState) :
    Outcome × Option GlfwState :=
  match args with
  | [] => (.panicked "index out of bounds: the len is 0 but the index is 0", st)
  | a0 :: _ =>
    match a0.as_int with
    | .error e => (.err e, st)
    | .ok i =>
      match st with
      | none => (.err "GLFW not initialized", none)
      | some state =>
        match lookupW state.windows (toUSize i) with
        | some (window, _) => (.ok (.boolean window.shouldClose), some state)
        | none => (.ok (.boolean true), some state)

/-- Bridge function `glfw_swap_buffers`: indexes `args[0]` with no arity check (a Rust
panic on an empty argument list), converts it, checks initialization; a
registered window gets its buffers swapped (a purely native side effect),
an unknown handle is a no-op; either way returns `Ok(Null)`. -/
def glfw_swap_buffers (args : List Value) (st : Option GlfwState) :
    Outcome × Option GlfwState :=
  match args with
  | [] => (.panicked "index out of bounds: the len is 0 but the index is 0", st)
  | a0 :: _ =>
    match a0.as_int with
    | .error e => (.err e, st)
    | .ok i =>
      match st with
      | none => (.err "GLFW not initialized", none)
      | some state =>
        match lookupW state.windows (toUSize i) with
        | some _ => (.ok .null, some state)
        | none => (.ok .null, some state)

/-- Bridge function `glfw_poll_events`: ignores its arguments, checks initialization, then
calls `Glfw::poll_events`, whose effect on the native state of each
registered window is modelled by the per-window update `eff`; returns `Ok(Null)`. -/
def glfw_poll_events (eff : Nat → NativeWindow → NativeWindow)
    (_args : List Value) (st : Option GlfwState) : Outcome × Option GlfwState :=
  match st with
  | none => (.err "GLFW not initialized", none)
  | some state =>
    (.ok .null,
     some { state with
            windows := state.windows.map
              (fun e => (e.1, (eff e.1 e.2.1, e.2.2))) })

/-- Bridge function `glfw_get_proc_address`: ignores its arguments and never touches the
global state; returns `glfwGetProcAddress as usize as i64` (the address of the symbol,
passed in as `addr`) as `Ok(Integer(..))`. -/
def glfw_get_proc_address (addr : Nat) (_args : List Value)
    (st : Option GlfwState) : Outcome × Option GlfwState :=
  (.ok (.integer (toI64 addr)), st)

/-- Bridge function `glfw_get_key`: arity check (`args.len() != 2`), converts the window id
(`as usize`) and the key code (`as i32`), checks initialization; a
registered window reports whether the action of the (transmuted) key is `Press`
or `Repeat`, an unknown handle yields `Ok(Boolean(false))`. -/
def glfw_get_key (args : List Value) (st : Option GlfwState) :
    Outcome × Option GlfwState :=
  match args with
  | [a0, a1] =>
    match a0.as_int with
    | .error e => (.err e, st)
    | .ok i =>
      match a1.as_int with
      | .error e => (.err e, st)
      | .ok kc =>
        match st with
        | none => (.err "GLFW not initialized", none)
        | some state =>
          match lookupW state.windows (toUSize i) with
          | some (window, _) =>
            let action := window.getKey (toI32 kc)
            (.ok (.boolean (action == KeyAction.press || action == KeyAction.rept)),
             some state)
          | none => (.ok (.boolean false), some state)
  | _ => (.err "Args: win_id, key_code", st)

/-- Bridge function `glfw_get_time`: ignores its arguments, checks initialization, returns
the native clock `Glfw::get_time()` as `Ok(Float(..))`. -/
def glfw_get_time (_args : List Value) (st : Option GlfwState) :
    Outcome × Option GlfwState :=
  match st with
  | none => (.err "GLFW not initialized", none)
  | some state => (.ok (.float state.context.time), some state)

/-- One host-issued bridge call, carrying its argument list together with
the response of the native backend for the native call it performs (the
part of the behaviour the bridge cannot control). -/
inductive Op where
  | init : Except String GlfwContext → List Value → Op
  | createWindow : (Nat → Nat → String → Option WEntry) → List Value → Op
  | shouldClose : List Value → Op
  | swapBuffers : List Value → Op
  | pollEvents : (Nat → NativeWindow → NativeWindow) → List Value → Op
  | getProcAddress : Nat → List Value → Op
  | getKey : List Value → Op
  | getTime : List Value → Op

/-- Dispatch of one call to its bridge function. -/
def step : Op → Option GlfwState → Outcome × Option GlfwState
  | .init res args, st => glfw_init res args st
  | .createWindow nc args, st => glfw_create_window nc args st
  | .shouldClose args, st => glfw_window_should_close args st
  | .swapBuffers args, st => glfw_swap_buffers args st
  | .pollEvents eff args, st => glfw_poll_events eff args st
  | .getProcAddress addr args, st => glfw_get_proc_address addr args st
  | .getKey args, st => glfw_get_key args st
  | .getTime args, st => glfw_get_time args st

/-- The global state after running a sequence of calls. -/
def runState : List Op → Option GlfwState → Option GlfwState
  | [], st => st
  | op :: ts, st => runState ts (step op st).2

/-- The handle a single call returns to the host, if it is a successful
`create_window`. -/
def emittedHandles (op : Op) (out : Outcome) : List Int :=
  match op, out with
  | .createWindow _ _, .ok (.integer i) => [i]
  | _, _ => []

/-- All handles returned by successful `create_window` calls along a run. -/
def runHandles : List Op → Option GlfwState → List Int
  | [], _ => []
  | op :: ts, st =>
    emittedHandles op (step op st).1 ++ runHandles ts (step op st).2

/-- Whether a call is an `init` call. -/
def Op.isInit : Op → Bool
  | .init _ _ => true
  | _ => false

/-- Whether a `create_window` call succeeds (given an initialized state):
three arguments of the right variants and a native backend that accepts. -/
def createOk : Op → Bool
  | .createWindow nc args =>
    match args with
    | [a0, a1, a2] =>
      match a0.as_int, a1.as_int, a2.as_str with
      | .ok wi, .ok hi, .ok t => (nc (toU32 wi) (toU32 hi) t).isSome
      | _, _, _ => false
    | _ => false
  | _ => false

/-- Number of successful `create_window` calls in a sequence. -/
def countOk (ts : List Op) : Nat := (ts.filter createOk).length

/-- Every registry key present in the state has had its `i64` image handed
out to the host: the invariant tying the registry to the handles returned
by successful `create_window` calls. -/
def HandleInv (s : Option GlfwState) (hs : List Int) : Prop :=
  ∀ state, s = some state →
    ∀ k, (lookupW state.windows k).isSome = true → toI64 k ∈ hs

/-- A concrete native context, for concrete runs. -/
def demoCtx : GlfwContext := { time := 0 }

/-- A concrete native window as handed back by the backend, for concrete
runs: not close-requested, no key pressed. -/
def demoWin : NativeWindow :=
  { shouldClose := false, keyPolling := false, getKey := fun _ => .release }

/-- A native backend response that accepts every window request. -/
def ncAccept : Nat → Nat → String → Option WEntry :=
  fun _ _ _ => some (demoWin, .mk)

/-- A native backend response that refuses every window request. -/
def ncRefuse : Nat → Nat → String → Option WEntry := fun _ _ _ => none

/-- The state right after a successful `init` with the concrete context. -/
def demoState : GlfwState := { context := demoCtx, windows := [], next_id := 1 }

/-- C7: a successful `init` (whatever the previous state, windows included)
replaces it by a fresh state with an empty registry and handle counter 1,
and returns `Ok(Boolean(true))`; prior windows are discarded silently, not
a crash. -/
theorem init_ok_resets_state (ctx : GlfwContext) (args : List Value)
    (st : Option GlfwState) :
    glfw_init (.ok ctx) args st =
      (.ok (.boolean true), some { context := ctx, windows := [], next_id := 1 }) :=
  rfl

/-- C2: every handle- or context-dependent operation, invoked with
well-formed arguments before any successful `init` (global state `none`),
fails with the textual not-initialized error and returns no value. -/
theorem before_init_all_fail (w h k : Int) (t : String)
    (nc : Nat → Nat → String → Option WEntry)
    (eff : Nat → NativeWindow → NativeWindow) (args : List Value) :
    (glfw_create_window nc [.integer w, .integer h, .text t] none).1
      = .err "GLFW not initialized" ∧
    (glfw_window_should_close [.integer h] none).1 = .err "GLFW not initialized" ∧
    (glfw_swap_buffers [.integer h] none).1 = .err "GLFW not initialized" ∧
    (glfw_get_key [.integer h, .integer k] none).1 = .err "GLFW not initialized" ∧
    (glfw_poll_events eff args none).1 = .err "GLFW not initialized" ∧
    (glfw_get_time args none).1 = .err "GLFW not initialized" :=
  ⟨rfl, rfl, rfl, rfl, rfl, rfl⟩

/-- C3: `should_close` and `swap_buffers` perform no arity check before
indexing `args[0]`; on an empty argument list they hit an out-of-bounds
`Vec` index, a Rust panic, instead of returning an `ArgumentError`-style
failure to the host. -/
theorem empty_args_panic (st : Option GlfwState) :
    (glfw_window_should_close [] st).1
      = .panicked "index out of bounds: the len is 0 but the index is 0" ∧
    (glfw_swap_buffers [] st).1
      = .panicked "index out of bounds: the len is 0 but the index is 0" :=
  ⟨rfl, rfl⟩

/-- C6: whenever `create_window` does not succeed (wrong arity, wrong
argument variant, uninitialized context, or native refusal) the global
state is returned unchanged: no counter increment, no registry insertion. -/
theorem create_window_fail_leaves_state (nc : Nat → Nat → String → Option WEntry)
    (args : List Value) (st : Option GlfwState)
    (hfail : (glfw_create_window nc args st).1.isOk = false) :
    (glfw_create_window nc args st).2 = st := by
  rcases args with _ | ⟨a0, _ | ⟨a1, _ | ⟨a2, _ | ⟨a3, rest⟩⟩⟩⟩
  · rfl
  · rfl
  · rfl
  · cases h0 : a0.as_int with
    | error e => simp [glfw_create_window, h0]
    | ok wi =>
      cases h1 : a1.as_int with
      | error e => simp [glfw_create_window, h0, h1]
      | ok hi =>
        cases h2 : a2.as_str with
        | error e => simp [glfw_create_window, h0, h1, h2]
        | ok title =>
          cases st with
          | none => simp [glfw_create_window, h0, h1, h2]
          | some state =>
            cases h3 : nc (toU32 wi) (toU32 hi) title with
            | none => simp [glfw_create_window, h0, h1, h2, h3]
            | some pr =>
              exfalso
              obtain ⟨win, ev⟩ := pr
              simp [glfw_create_window, h0, h1, h2, h3, Outcome.isOk] at hfail
  · rfl

/-- C6 witness: a concrete failing call (native backend refuses) leaves the
concrete state unchanged. -/
theorem create_window_fail_leaves_state_witness :
    ((glfw_create_window (fun _ _ _ => none)
        [.integer 800, .integer 600, .text "T"]
        (some { context := { time := 0 }, windows := [], next_id := 1 })).1.isOk
      = false) ∧
    (glfw_create_window (fun _ _ _ => none)
        [.integer 800, .integer 600, .text "T"]
        (some { context := { time := 0 }, windows := [], next_id := 1 })).2
      = some { context := { time := 0 }, windows := [], next_id := 1 } :=
  ⟨rfl, create_window_fail_leaves_state _ _ _ rfl⟩

/-- C9: the bridge converts width and height to the native unsigned 32-bit
type by plain truncation modulo 2^32 with no positivity or range check: a
native backend that accepts exactly the reduced values is reached and the
call succeeds for any `i64` inputs, an always-refusing backend yields the
window-creation error, and `-1` truncates to `4294967295`. -/
theorem create_window_truncates_mod_2_32 (w h : Int) (t : String)
    (state : GlfwState) (win : NativeWindow) (r : GlfwReceiver) :
    (glfw_create_window
        (fun a b _ =>
          if a = (w % (2 : Int) ^ 32).toNat ∧ b = (h % (2 : Int) ^ 32).toNat
          then some (win, r) else none)
        [.integer w, .integer h, .text t] (some state)).1
      = .ok (.integer (toI64 state.next_id)) ∧
    (glfw_create_window (fun _ _ _ => none)
        [.integer w, .integer h, .text t] (some state)).1
      = .err "Failed to create GLFW window" ∧
    toU32 (-1) = 4294967295 := by
  refine ⟨?_, rfl, by decide⟩
  simp [glfw_create_window, Value.as_int, Value.as_str, toU32]

/-- Helper: `create_window` never succeeds while the global state is `none`. -/
theorem create_window_none_not_ok (nc : Nat → Nat → String → Option WEntry)
    (args : List Value) : (glfw_create_window nc args none).1.isOk = false := by
  rcases args with _ | ⟨a0, _ | ⟨a1, _ | ⟨a2, _ | ⟨a3, rest⟩⟩⟩⟩
  · rfl
  · rfl
  · rfl
  · cases h0 : a0.as_int with
    | error e => simp [glfw_create_window, h0, Outcome.isOk]
    | ok wi =>
      cases h1 : a1.as_int with
      | error e => simp [glfw_create_window, h0, h1, Outcome.isOk]
      | ok hi =>
        cases h2 : a2.as_str with
        | error e => simp [glfw_create_window, h0, h1, h2, Outcome.isOk]
        | ok title => simp [glfw_create_window, h0, h1, h2, Outcome.isOk]
  · rfl

/-- Helper: `should_close` never succeeds while the global state is `none`. -/
theorem should_close_none_not_ok (args : List Value) :
    (glfw_window_should_close args none).1.isOk = false := by
  rcases args with _ | ⟨a0, rest⟩
  · rfl
  · cases a0 <;> rfl

/-- Helper: `swap_buffers` never succeeds while the global state is `none`. -/
theorem swap_buffers_none_not_ok (args : List Value) :
    (glfw_swap_buffers args none).1.isOk = false := by
  rcases args with _ | ⟨a0, rest⟩
  · rfl
  · cases a0 <;> rfl

/-- Helper: `get_key` never succeeds while the global state is `none`. -/
theorem get_key_none_not_ok (args : List Value) :
    (glfw_get_key args none).1.isOk = false := by
  rcases args with _ | ⟨a0, _ | ⟨a1, _ | ⟨a2, rest⟩⟩⟩
  · rfl
  · cases a0 <;> rfl
  · cases a0 <;> cases a1 <;> rfl
  · rfl

/-- C8 counterexample: `init` is an exposed operation other than
`get_proc_address` that also succeeds while the Windowing Context does not
exist (it is the operation that creates it), so `get_proc_address` is not
the only context-free operation. -/
theorem init_succeeds_without_context :
    (glfw_init (.ok { time := 0 }) [] none).1.isOk = true := rfl

/-- C8 (amended): `get_proc_address` always succeeds with an address-sized
integer, for every argument list and every state, and among the exposed
operations other than `init` it is the only one that can succeed while the
Windowing Context does not exist: all six others never return `Ok` on the
uninitialized state. -/
theorem get_proc_address_always_succeeds (addr : Nat) (args args2 : List Value)
    (st : Option GlfwState) (nc : Nat → Nat → String → Option WEntry)
    (eff : Nat → NativeWindow → NativeWindow) :
    glfw_get_proc_address addr args st = (.ok (.integer (toI64 addr)), st) ∧
    (glfw_create_window nc args2 none).1.isOk = false ∧
    (glfw_window_should_close args2 none).1.isOk = false ∧
    (glfw_swap_buffers args2 none).1.isOk = false ∧
    (glfw_get_key args2 none).1.isOk = false ∧
    (glfw_poll_events eff args2 none).1.isOk = false ∧
    (glfw_get_time args2 none).1.isOk = false :=
  ⟨rfl, create_window_none_not_ok nc args2, should_close_none_not_ok args2,
   swap_buffers_none_not_ok args2, get_key_none_not_ok args2, rfl, rfl⟩

/-- C10 counterexample: in `get_key` the arity check precedes argument
conversion, so a one-element argument list with a non-integer first
argument fails with the arity error, not with the wrong-variant conversion
error the claim promises for every non-integer first argument. -/
theorem get_key_wrong_arity_not_conversion_error :
    Value.isInt .null = false ∧
    (glfw_get_key [.null] none).1 = .err "Args: win_id, key_code" ∧
    Value.as_int .null = .error "Expected Integer" ∧
    ("Args: win_id, key_code" : String) ≠ "Expected Integer" :=
  ⟨rfl, rfl, rfl, by decide⟩

/-- Helper: `should_close` reports the not-initialized error only when its
first argument is of the integer variant (whatever the state). -/
theorem should_close_notinit_implies_int (args : List Value)
    (st : Option GlfwState)
    (herr : (glfw_window_should_close args st).1 = .err "GLFW not initialized") :
    ∃ i rest2, args = .integer i :: rest2 := by
  rcases args with _ | ⟨a0, rest2⟩
  · exact absurd herr (by simp [glfw_window_should_close])
  · cases a0 with
    | integer i => exact ⟨i, rest2, rfl⟩
    | boolean b => exact absurd herr (by simp [glfw_window_should_close, Value.as_int])
    | float f => exact absurd herr (by simp [glfw_window_should_close, Value.as_int])
    | text s => exact absurd herr (by simp [glfw_window_should_close, Value.as_int])
    | null => exact absurd herr (by simp [glfw_window_should_close, Value.as_int])

/-- Helper: `swap_buffers` reports the not-initialized error only when its
first argument is of the integer variant (whatever the state). -/
theorem swap_buffers_notinit_implies_int (args : List Value)
    (st : Option GlfwState)
    (herr : (glfw_swap_buffers args st).1 = .err "GLFW not initialized") :
    ∃ i rest2, args = .integer i :: rest2 := by
  rcases args with _ | ⟨a0, rest2⟩
  · exact absurd herr (by simp [glfw_swap_buffers])
  · cases a0 with
    | integer i => exact ⟨i, rest2, rfl⟩
    | boolean b => exact absurd herr (by simp [glfw_swap_buffers, Value.as_int])
    | float f => exact absurd herr (by simp [glfw_swap_buffers, Value.as_int])
    | text s => exact absurd herr (by simp [glfw_swap_buffers, Value.as_int])
    | null => exact absurd herr (by simp [glfw_swap_buffers, Value.as_int])

/-- Helper: `get_key` with an argument count other than two fails with the
arity error, whatever the argument variants and whatever the state. -/
theorem get_key_wrong_arity (args : List Value) (st : Option GlfwState)
    (hlen : args.length ≠ 2) :
    (glfw_get_key args st).1 = .err "Args: win_id, key_code" := by
  rcases args with _ | ⟨a0, _ | ⟨a1, _ | ⟨a2, rest⟩⟩⟩
  · rfl
  · rfl
  · exact absurd rfl hlen
  · rfl

/-- Helper: `get_key` reports the not-initialized error only when it was
called with exactly two arguments, both of the integer variant (whatever
the state). -/
theorem get_key_notinit_implies_ints (args : List Value)
    (st : Option GlfwState)
    (herr : (glfw_get_key args st).1 = .err "GLFW not initialized") :
    ∃ i j, args = [.integer i, .integer j] := by
  rcases args with _ | ⟨a0, _ | ⟨a1, _ | ⟨a2, rest⟩⟩⟩
  · exact absurd herr (by simp [glfw_get_key])
  · exact absurd herr (by simp [glfw_get_key])
  · cases a0 with
    | integer i =>
      cases a1 with
      | integer j => exact ⟨i, j, rfl⟩
      | boolean b => exact absurd herr (by simp [glfw_get_key, Value.as_int])
      | float f => exact absurd herr (by simp [glfw_get_key, Value.as_int])
      | text s => exact absurd herr (by simp [glfw_get_key, Value.as_int])
      | null => exact absurd herr (by simp [glfw_get_key, Value.as_int])
    | boolean b => exact absurd herr (by simp [glfw_get_key, Value.as_int])
    | float f => exact absurd herr (by simp [glfw_get_key, Value.as_int])
    | text s => exact absurd herr (by simp [glfw_get_key, Value.as_int])
    | null => exact absurd herr (by simp [glfw_get_key, Value.as_int])
  · exact absurd herr (by simp [glfw_get_key])

/-- C10 (amended): in `should_close` and `swap_buffers` argument conversion
precedes the initialization check, so any non-integer first argument yields
the wrong-variant conversion error even with the context never initialized;
in `get_key` the arity check comes first (argument count other than two
fails with the arity error regardless of variants and of initialization),
and among two-argument calls a non-integer first argument likewise yields
the conversion error before the initialization check.  In all three
operations the not-initialized error is produced only when the supplied
arguments convert successfully: an integer first argument, and for
`get_key` exactly two integer arguments. -/
theorem conversion_and_arity_order (v w : Value) (rest : List Value)
    (hv : v.isInt = false) :
    (∃ e, (glfw_window_should_close (v :: rest) none).1 = .err e
        ∧ e ≠ "GLFW not initialized") ∧
    (∃ e, (glfw_swap_buffers (v :: rest) none).1 = .err e
        ∧ e ≠ "GLFW not initialized") ∧
    (∃ e, (glfw_get_key [v, w] none).1 = .err e
        ∧ e ≠ "GLFW not initialized") ∧
    (∀ args2 st, args2.length ≠ 2 →
      (glfw_get_key args2 st).1 = .err "Args: win_id, key_code") ∧
    (∀ args2 st,
      (glfw_window_should_close args2 st).1 = .err "GLFW not initialized" →
      ∃ i rest2, args2 = .integer i :: rest2) ∧
    (∀ args2 st,
      (glfw_swap_buffers args2 st).1 = .err "GLFW not initialized" →
      ∃ i rest2, args2 = .integer i :: rest2) ∧
    (∀ args2 st,
      (glfw_get_key args2 st).1 = .err "GLFW not initialized" →
      ∃ i j, args2 = [.integer i, .integer j]) := by
  refine ⟨?_, ?_, ?_,
          fun args2 st h => get_key_wrong_arity args2 st h,
          fun args2 st h => should_close_notinit_implies_int args2 st h,
          fun args2 st h => swap_buffers_notinit_implies_int args2 st h,
          fun args2 st h => get_key_notinit_implies_ints args2 st h⟩
  · cases v <;> simp_all [Value.isInt, glfw_window_should_close, Value.as_int]
  · cases v <;> simp_all [Value.isInt, glfw_swap_buffers, Value.as_int]
  · cases v <;> simp_all [Value.isInt, glfw_get_key, Value.as_int]

/-- C10 witness: a concrete non-integer first argument (`Null`, with a
boolean second argument for `get_key`) under the never-initialized
context. -/
theorem conversion_and_arity_order_witness :
    Value.isInt .null = false ∧
    ((∃ e, (glfw_window_should_close [.null] none).1 = .err e
        ∧ e ≠ "GLFW not initialized") ∧
    (∃ e, (glfw_swap_buffers [.null] none).1 = .err e
        ∧ e ≠ "GLFW not initialized") ∧
    (∃ e, (glfw_get_key [.null, .boolean true] none).1 = .err e
        ∧ e ≠ "GLFW not initialized") ∧
    (∀ args2 st, args2.length ≠ 2 →
      (glfw_get_key args2 st).1 = .err "Args: win_id, key_code") ∧
    (∀ args2 st,
      (glfw_window_should_close args2 st).1 = .err "GLFW not initialized" →
      ∃ i rest2, args2 = .integer i :: rest2) ∧
    (∀ args2 st,
      (glfw_swap_buffers args2 st).1 = .err "GLFW not initialized" →
      ∃ i rest2, args2 = .integer i :: rest2) ∧
    (∀ args2 st,
      (glfw_get_key args2 st).1 = .err "GLFW not initialized" →
      ∃ i j, args2 = [.integer i, .integer j])) :=
  ⟨rfl, conversion_and_arity_order .null (.boolean true) [] rfl⟩

/-- Helper: `usize` round trip — for a handle in the `i64` range, casting
to `usize` and back is the identity. -/
theorem toI64_toUSize (h : Int) (hlo : -(2 : Int) ^ 63 ≤ h) (hhi : h < 2 ^ 63) :
    toI64 (toUSize h) = h := by
  have e64i : (2 : Int) ^ 64 = 18446744073709551616 := by norm_num
  have e63i : (2 : Int) ^ 63 = 9223372036854775808 := by norm_num
  have e64n : (2 : Nat) ^ 64 = 18446744073709551616 := by norm_num
  have e63n : (2 : Nat) ^ 63 = 9223372036854775808 := by norm_num
  rw [e63i] at hlo hhi
  unfold toI64 toUSize
  simp only [e64i, e63i, e64n, e63n]
  split <;> omega

/-- Helper: `usize as i64` is the identity below 2^63. -/
theorem toI64_small (k : Nat) (hk : k < 2 ^ 63) : toI64 k = (k : Int) := by
  have e64n : (2 : Nat) ^ 64 = 18446744073709551616 := by norm_num
  have e63n : (2 : Nat) ^ 63 = 9223372036854775808 := by norm_num
  rw [e63n] at hk
  unfold toI64
  simp only [e64n, e63n, (by norm_num : (2 : Int) ^ 64 = 18446744073709551616)]
  split <;> omega

/-- Helper: a key found after a registry insertion is the inserted key or
was already present. -/
theorem lookupW_insertW_isSome (m : WindowMap) (k0 k : Nat) (v : WEntry)
    (h : (lookupW (insertW m k0 v) k).isSome = true) :
    k = k0 ∨ (lookupW m k).isSome = true := by
  induction m with
  | nil =>
    simp only [insertW, lookupW] at h
    by_cases hk : k0 = k
    · exact .inl hk.symm
    · simp [hk, lookupW] at h
  | cons e rest ih =>
    obtain ⟨k1, v1⟩ := e
    by_cases h10 : k1 = k0
    · subst h10
      simp only [insertW, if_pos rfl, lookupW] at h
      by_cases h1k : k1 = k
      · exact .inl h1k.symm
      · simp only [if_neg h1k] at h
        exact .inr (by simp [lookupW, if_neg h1k, h])
    · simp only [insertW, if_neg h10, lookupW] at h
      by_cases h1k : k1 = k
      · exact .inr (by simp [lookupW, if_pos h1k])
      · simp only [if_neg h1k] at h
        rcases ih h with h2 | h2
        · exact .inl h2
        · exact .inr (by simp [lookupW, if_neg h1k, h2])

/-- Helper: the per-window native update of `poll_events` preserves exactly
the registered keys. -/
theorem lookupW_map_isSome (m : WindowMap) (f : Nat → NativeWindow → NativeWindow)
    (k : Nat) :
    (lookupW (m.map (fun e => (e.1, (f e.1 e.2.1, e.2.2)))) k).isSome
      = (lookupW m k).isSome := by
  induction m with
  | nil => rfl
  | cons e rest ih =>
    obtain ⟨k1, v1⟩ := e
    by_cases h1k : k1 = k <;> simp [lookupW, h1k, ih]

/-- Helper: a non-`init` bridge call on an initialized state keeps it
initialized, increments the handle counter exactly when it is a successful
`create_window` (in which case it hands out exactly the old counter value
as the new handle), and adds at most the key of that handle to the registry. -/
theorem step_spec (op : Op) (state : GlfwState) (h : op.isInit = false) :
    ∃ state2, (step op (some state)).2 = some state2 ∧
      state2.next_id = state.next_id + (if createOk op then 1 else 0) ∧
      emittedHandles op (step op (some state)).1 =
        (if createOk op then [toI64 state.next_id] else []) ∧
      (∀ k, (lookupW state2.windows k).isSome = true →
        (lookupW state.windows k).isSome = true ∨
        toI64 k ∈ emittedHandles op (step op (some state)).1) := by
  cases op with
  | init res args => simp [Op.isInit] at h
  | createWindow nc args =>
    rcases args with _ | ⟨a0, _ | ⟨a1, _ | ⟨a2, _ | ⟨a3, rest⟩⟩⟩⟩
    · exact ⟨state, rfl, by simp [createOk], rfl, fun k hk => .inl hk⟩
    · exact ⟨state, rfl, by simp [createOk], rfl, fun k hk => .inl hk⟩
    · exact ⟨state, rfl, by simp [createOk], rfl, fun k hk => .inl hk⟩
    · cases h0 : a0.as_int with
      | error e =>
        refine ⟨state, ?_, ?_, ?_, fun k hk => .inl hk⟩ <;>
          simp [step, glfw_create_window, createOk, emittedHandles, h0]
      | ok wi =>
        cases h1 : a1.as_int with
        | error e =>
          refine ⟨state, ?_, ?_, ?_, fun k hk => .inl hk⟩ <;>
            simp [step, glfw_create_window, createOk, emittedHandles, h0, h1]
        | ok hi =>
          cases h2 : a2.as_str with
          | error e =>
            refine ⟨state, ?_, ?_, ?_, fun k hk => .inl hk⟩ <;>
              simp [step, glfw_create_window, createOk, emittedHandles, h0, h1, h2]
          | ok title =>
            cases h3 : nc (toU32 wi) (toU32 hi) title with
            | none =>
              refine ⟨state, ?_, ?_, ?_, fun k hk => .inl hk⟩ <;>
                simp [step, glfw_create_window, createOk, emittedHandles, h0, h1, h2, h3]
            | some pr =>
              obtain ⟨win, ev⟩ := pr
              refine ⟨{ state with
                        windows := insertW state.windows state.next_id
                          ({ win with keyPolling := true }, ev),
                        next_id := state.next_id + 1 }, ?_, ?_, ?_, ?_⟩
              · simp [step, glfw_create_window, h0, h1, h2, h3]
              · simp [createOk, h0, h1, h2, h3]
              · simp [step, glfw_create_window, emittedHandles, createOk, h0, h1, h2, h3]
              · intro k hk
                rcases lookupW_insertW_isSome _ _ _ _ hk with hnew | hold
                · subst hnew
                  right
                  simp [step, glfw_create_window, emittedHandles, h0, h1, h2, h3]
                · exact .inl hold
    · exact ⟨state, rfl, by simp [createOk], rfl, fun k hk => .inl hk⟩
  | shouldClose args =>
    rcases args with _ | ⟨a0, rest⟩
    · exact ⟨state, rfl, by simp [createOk], rfl, fun k hk => .inl hk⟩
    · cases h0 : a0.as_int with
      | error e =>
        refine ⟨state, ?_, ?_, ?_, fun k hk => .inl hk⟩ <;>
          simp [step, glfw_window_should_close, createOk, emittedHandles, h0]
      | ok i =>
        cases hlk : lookupW state.windows (toUSize i) with
        | some pr =>
          obtain ⟨win, ev⟩ := pr
          refine ⟨state, ?_, ?_, ?_, fun k hk => .inl hk⟩ <;>
            simp [step, glfw_window_should_close, createOk, emittedHandles, h0, hlk]
        | none =>
          refine ⟨state, ?_, ?_, ?_, fun k hk => .inl hk⟩ <;>
            simp [step, glfw_window_should_close, createOk, emittedHandles, h0, hlk]
  | swapBuffers args =>
    rcases args with _ | ⟨a0, rest⟩
    · exact ⟨state, rfl, by simp [createOk], rfl, fun k hk => .inl hk⟩
    · cases h0 : a0.as_int with
      | error e =>
        refine ⟨state, ?_, ?_, ?_, fun k hk => .inl hk⟩ <;>
          simp [step, glfw_swap_buffers, createOk, emittedHandles, h0]
      | ok i =>
        cases hlk : lookupW state.windows (toUSize i) with
        | some pr =>
          obtain ⟨win, ev⟩ := pr
          refine ⟨state, ?_, ?_, ?_, fun k hk => .inl hk⟩ <;>
            simp [step, glfw_swap_buffers, createOk, emittedHandles, h0, hlk]
        | none =>
          refine ⟨state, ?_, ?_, ?_, fun k hk => .inl hk⟩ <;>
            simp [step, glfw_swap_buffers, createOk, emittedHandles, h0, hlk]
  | pollEvents eff args =>
    refine ⟨{ state with
              windows := state.windows.map
                (fun e => (e.1, (eff e.1 e.2.1, e.2.2))) }, rfl,
            by simp [createOk], rfl, ?_⟩
    intro k hk
    rw [lookupW_map_isSome] at hk
    exact .inl hk
  | getProcAddress addr args =>
    exact ⟨state, rfl, by simp [createOk], rfl, fun k hk => .inl hk⟩
  | getKey args =>
    rcases args with _ | ⟨a0, _ | ⟨a1, _ | ⟨a2, rest⟩⟩⟩
    · exact ⟨state, rfl, by simp [createOk], rfl, fun k hk => .inl hk⟩
    · exact ⟨state, rfl, by simp [createOk], rfl, fun k hk => .inl hk⟩
    · cases h0 : a0.as_int with
      | error e =>
        refine ⟨state, ?_, ?_, ?_, fun k hk => .inl hk⟩ <;>
          simp [step, glfw_get_key, createOk, emittedHandles, h0]
      | ok i =>
        cases h1 : a1.as_int with
        | error e =>
          refine ⟨state, ?_, ?_, ?_, fun k hk => .inl hk⟩ <;>
            simp [step, glfw_get_key, createOk, emittedHandles, h0, h1]
        | ok kc =>
          cases hlk : lookupW state.windows (toUSize i) with
          | some pr =>
            obtain ⟨win, ev⟩ := pr
            refine ⟨state, ?_, ?_, ?_, fun k hk => .inl hk⟩ <;>
              simp [step, glfw_get_key, createOk, emittedHandles, h0, h1, hlk]
          | none =>
            refine ⟨state, ?_, ?_, ?_, fun k hk => .inl hk⟩ <;>
              simp [step, glfw_get_key, createOk, emittedHandles, h0, h1, hlk]
    · exact ⟨state, rfl, by simp [createOk], rfl, fun k hk => .inl hk⟩
  | getTime args =>
    exact ⟨state, rfl, by simp [createOk], rfl, fun k hk => .inl hk⟩

/-- Helper: a non-`init` call can never take the global state from
uninitialized to initialized. -/
theorem step_none_eq (op : Op) (h : op.isInit = false) :
    (step op none).2 = none := by
  cases op with
  | init res args => simp [Op.isInit] at h
  | createWindow nc args =>
    rcases args with _ | ⟨a0, _ | ⟨a1, _ | ⟨a2, _ | ⟨a3, rest⟩⟩⟩⟩
    · rfl
    · rfl
    · rfl
    · cases h0 : a0.as_int with
      | error e => simp [step, glfw_create_window, h0]
      | ok wi =>
        cases h1 : a1.as_int with
        | error e => simp [step, glfw_create_window, h0, h1]
        | ok hi =>
          cases h2 : a2.as_str with
          | error e => simp [step, glfw_create_window, h0, h1, h2]
          | ok title => simp [step, glfw_create_window, h0, h1, h2]
    · rfl
  | shouldClose args =>
    rcases args with _ | ⟨a0, rest⟩
    · rfl
    · cases a0 <;> rfl
  | swapBuffers args =>
    rcases args with _ | ⟨a0, rest⟩
    · rfl
    · cases a0 <;> rfl
  | pollEvents eff args => rfl
  | getProcAddress addr args => rfl
  | getKey args =>
    rcases args with _ | ⟨a0, _ | ⟨a1, _ | ⟨a2, rest⟩⟩⟩
    · rfl
    · cases a0 <;> rfl
    · cases a0 <;> cases a1 <;> rfl
    · rfl
  | getTime args => rfl

/-- Helper: one call preserves the registry/handles invariant, extending
the handle list by whatever the call hands out. -/
theorem handleInv_step (op : Op) (s : Option GlfwState) (hs : List Int)
    (hinv : HandleInv s hs) :
    HandleInv (step op s).2 (hs ++ emittedHandles op (step op s).1) := by
  by_cases hop : op.isInit = true
  · cases op with
    | init res args =>
      cases res with
      | error e =>
        intro state2 h2 k hk
        cases s with
        | none => exact absurd h2 (by simp [step, glfw_init])
        | some state =>
          have h2e : state = state2 := by
            simpa [step, glfw_init] using h2
          subst h2e
          exact List.mem_append_left _ (hinv state rfl k hk)
      | ok ctx =>
        intro state2 h2 k hk
        have h2e : ({ context := ctx, windows := [], next_id := 1 } : GlfwState) = state2 := by
          simpa [step, glfw_init] using h2
        subst h2e
        simp [lookupW] at hk
    | createWindow nc args => simp [Op.isInit] at hop
    | shouldClose args => simp [Op.isInit] at hop
    | swapBuffers args => simp [Op.isInit] at hop
    | pollEvents eff args => simp [Op.isInit] at hop
    | getProcAddress addr args => simp [Op.isInit] at hop
    | getKey args => simp [Op.isInit] at hop
    | getTime args => simp [Op.isInit] at hop
  · have hop2 : op.isInit = false := by simpa using hop
    cases s with
    | none =>
      intro state2 h2 k hk
      rw [step_none_eq op hop2] at h2
      exact absurd h2 (by simp)
    | some state =>
      obtain ⟨state2, hs2, hnext, hemit, hkeys⟩ := step_spec op state hop2
      intro st2 h2 k hk
      rw [hs2] at h2
      have h2e : state2 = st2 := by simpa using h2
      subst h2e
      rcases hkeys k hk with hold | hnew
      · exact List.mem_append_left _ (hinv state rfl k hold)
      · exact List.mem_append_right _ hnew

/-- Helper: the registry/handles invariant along a whole run. -/
theorem handleInv_run (ts : List Op) (s : Option GlfwState) (hs : List Int)
    (hinv : HandleInv s hs) :
    HandleInv (runState ts s) (hs ++ runHandles ts s) := by
  induction ts generalizing s hs with
  | nil => simpa [runState, runHandles] using hinv
  | cons op ts ih =>
    have h1 := handleInv_step op s hs hinv
    have h2 := ih (step op s).2 (hs ++ emittedHandles op (step op s).1) h1
    simpa [runState, runHandles, List.append_assoc] using h2

/-- Helper: along a run containing no `init`, from an initialized state the
handles handed out are exactly the consecutive counter values. -/
theorem runHandles_no_init (ts : List Op) (state : GlfwState)
    (h1 : ∀ op ∈ ts, op.isInit = false) :
    runHandles ts (some state) =
      (List.range' state.next_id (countOk ts)).map toI64 := by
  induction ts generalizing state with
  | nil => simp [runHandles, countOk]
  | cons op ts ih =>
    obtain ⟨state2, hs2, hnext, hemit, _⟩ :=
      step_spec op state (h1 op (List.mem_cons_self op ts))
    have hrest : ∀ o ∈ ts, o.isInit = false :=
      fun o ho => h1 o (List.mem_cons_of_mem op ho)
    simp only [runHandles, hs2, hemit, ih state2 hrest]
    by_cases hc : createOk op
    · simp [countOk, List.filter_cons, hc, hnext, List.range'_succ]
    · simp [countOk, List.filter_cons, hc, hnext]

/-- C1 counterexample: re-invoking `init` resets `next_id` to 1, so the
very same handle 1 is returned again by `create_window` after a re-init —
the handles returned across the process lifetime are not strictly
increasing and do repeat. -/
theorem handle_reused_after_reinit :
    runHandles
      [Op.init (.ok demoCtx) [],
       Op.createWindow ncAccept [.integer 800, .integer 600, .text "Test"],
       Op.init (.ok demoCtx) [],
       Op.createWindow ncAccept [.integer 320, .integer 240, .text "Test2"]]
      none = [1, 1] ∧
    ¬ List.Pairwise (· < ·)
      (runHandles
        [Op.init (.ok demoCtx) [],
         Op.createWindow ncAccept [.integer 800, .integer 600, .text "Test"],
         Op.init (.ok demoCtx) [],
         Op.createWindow ncAccept [.integer 320, .integer 240, .text "Test2"]]
        none) := by
  constructor
  · decide
  · decide

/-- C1 (amended): within one initialization epoch — from a state whose
counter is 1 (as produced by `init`), along any sequence of calls that
contains no re-`init` and fewer than 2^63 successful `create_window`
calls — the handles returned by successful `create_window` calls are
exactly the consecutive integers 1, 2, …, hence strictly increasing with
no repeats.  (Across a re-invocation of `init` the counter is reset and
handles repeat, see the counterexample.) -/
theorem handles_strictly_increasing_within_epoch (state : GlfwState)
    (ts : List Op) (h0 : state.next_id = 1)
    (h1 : ∀ op ∈ ts, op.isInit = false) (h2 : countOk ts < 2 ^ 63) :
    runHandles ts (some state) = (List.range' 1 (countOk ts)).map toI64 ∧
    List.Pairwise (· < ·) (runHandles ts (some state)) := by
  have heq := runHandles_no_init ts state h1
  rw [h0] at heq
  refine ⟨heq, ?_⟩
  rw [heq]
  have hsmall : ∀ k ∈ List.range' 1 (countOk ts), toI64 k = (k : Int) := by
    intro k hk
    rw [List.mem_range'_1] at hk
    exact toI64_small k (by omega)
  rw [List.map_congr_left hsmall]
  exact (List.pairwise_lt_range' 1 (countOk ts)).map _
    (fun a b hab => by exact_mod_cast hab)

/-- C1 witness: after an `init`, two successful `create_window` calls with
a native refusal in between return exactly the handles 1 and 2. -/
theorem handles_strictly_increasing_within_epoch_witness :
    demoState.next_id = 1 ∧
    (∀ op ∈ [Op.createWindow ncAccept [.integer 800, .integer 600, .text "Test"],
             Op.createWindow ncRefuse [.integer 1, .integer 1, .text "X"],
             Op.createWindow ncAccept [.integer 320, .integer 240, .text "Test2"]],
      op.isInit = false) ∧
    countOk [Op.createWindow ncAccept [.integer 800, .integer 600, .text "Test"],
             Op.createWindow ncRefuse [.integer 1, .integer 1, .text "X"],
             Op.createWindow ncAccept [.integer 320, .integer 240, .text "Test2"]] < 2 ^ 63 ∧
    (runHandles
        [Op.createWindow ncAccept [.integer 800, .integer 600, .text "Test"],
         Op.createWindow ncRefuse [.integer 1, .integer 1, .text "X"],
         Op.createWindow ncAccept [.integer 320, .integer 240, .text "Test2"]]
        (some demoState)
      = (List.range'
          1
          (countOk [Op.createWindow ncAccept [.integer 800, .integer 600, .text "Test"],
                    Op.createWindow ncRefuse [.integer 1, .integer 1, .text "X"],
                    Op.createWindow ncAccept [.integer 320, .integer 240, .text "Test2"]])).map toI64 ∧
     List.Pairwise (· < ·)
       (runHandles
         [Op.createWindow ncAccept [.integer 800, .integer 600, .text "Test"],
          Op.createWindow ncRefuse [.integer 1, .integer 1, .text "X"],
          Op.createWindow ncAccept [.integer 320, .integer 240, .text "Test2"]]
         (some demoState))) :=
  ⟨rfl, by decide, by decide,
   handles_strictly_increasing_within_epoch demoState _ rfl (by decide) (by decide)⟩

/-- C4: after `init` has succeeded, `should_close` on any `i64` handle that
was never returned by a successful `create_window` during the run succeeds
and returns true. -/
theorem should_close_true_on_never_issued (ts : List Op) (h : Int)
    (hlo : -(2 : Int) ^ 63 ≤ h) (hhi : h < 2 ^ 63)
    (hsome : (runState ts none).isSome = true)
    (hnever : h ∉ runHandles ts none) :
    (glfw_window_should_close [.integer h] (runState ts none)).1
      = .ok (.boolean true) := by
  obtain ⟨state, hstate⟩ := Option.isSome_iff_exists.mp hsome
  have hinv : HandleInv (runState ts none) ([] ++ runHandles ts none) :=
    handleInv_run ts none [] (fun st2 h2 => by simp at h2)
  rw [hstate]
  cases hlk : lookupW state.windows (toUSize h) with
  | some pr =>
    exfalso
    have hmem := hinv state hstate (toUSize h) (by rw [hlk]; rfl)
    rw [toI64_toUSize h hlo hhi] at hmem
    simp only [List.nil_append] at hmem
    exact hnever hmem
  | none => simp [glfw_window_should_close, Value.as_int, hlk]

/-- C4 witness: the scenario given in the spec — after a bare `init`, handle 99
was never issued and `should_close(99)` returns true. -/
theorem should_close_true_on_never_issued_witness :
    (-(2 : Int) ^ 63 ≤ 99) ∧ ((99 : Int) < 2 ^ 63) ∧
    (runState [Op.init (.ok demoCtx) []] none).isSome = true ∧
    (99 : Int) ∉ runHandles [Op.init (.ok demoCtx) []] none ∧
    (glfw_window_should_close [.integer 99]
        (runState [Op.init (.ok demoCtx) []] none)).1 = .ok (.boolean true) :=
  ⟨by decide, by decide, rfl, by decide,
   should_close_true_on_never_issued _ 99 (by decide) (by decide) rfl (by decide)⟩

/-- C5: after `init` has succeeded, `swap_buffers` and `get_key` on any
`i64` handle never issued by `create_window` do not fail: `swap_buffers`
returns null leaving the state unchanged (a no-op) and `get_key` returns
false. -/
theorem swap_and_get_key_on_never_issued (ts : List Op) (h k : Int)
    (hlo : -(2 : Int) ^ 63 ≤ h) (hhi : h < 2 ^ 63)
    (hsome : (runState ts none).isSome = true)
    (hnever : h ∉ runHandles ts none) :
    glfw_swap_buffers [.integer h] (runState ts none)
      = (.ok .null, runState ts none) ∧
    (glfw_get_key [.integer h, .integer k] (runState ts none)).1
      = .ok (.boolean false) := by
  obtain ⟨state, hstate⟩ := Option.isSome_iff_exists.mp hsome
  have hinv : HandleInv (runState ts none) ([] ++ runHandles ts none) :=
    handleInv_run ts none [] (fun st2 h2 => by simp at h2)
  rw [hstate]
  cases hlk : lookupW state.windows (toUSize h) with
  | some pr =>
    exfalso
    have hmem := hinv state hstate (toUSize h) (by rw [hlk]; rfl)
    rw [toI64_toUSize h hlo hhi] at hmem
    simp only [List.nil_append] at hmem
    exact hnever hmem
  | none =>
    constructor
    · simp [glfw_swap_buffers, Value.as_int, hlk]
    · simp [glfw_get_key, Value.as_int, hlk]

/-- C5 witness: after a bare `init`, handle 99 was never issued;
`swap_buffers(99)` is a no-op returning null and `get_key(99, 65)` returns
false. -/
theorem swap_and_get_key_on_never_issued_witness :
    (-(2 : Int) ^ 63 ≤ 99) ∧ ((99 : Int) < 2 ^ 63) ∧
    (runState [Op.init (.ok demoCtx) []] none).isSome = true ∧
    (99 : Int) ∉ runHandles [Op.init (.ok demoCtx) []] none ∧
    (glfw_swap_buffers [.integer 99] (runState [Op.init (.ok demoCtx) []] none)
        = (.ok .null, runState [Op.init (.ok demoCtx) []] none) ∧
     (glfw_get_key [.integer 99, .integer 65]
         (runState [Op.init (.ok demoCtx) []] none)).1 = .ok (.boolean false)) :=
  ⟨by decide, by decide, rfl, by decide,
   swap_and_get_key_on_never_issued _ 99 65 (by decide) (by decide) rfl (by decide)⟩
